import Mathlib

/-!
Shallow embedding of the Sprint-Based Forecast Engine and Budget Ledger of the
FrontEnd-SQLServer repository.

Conventions of the embedding:
* Python floats are modelled as `ℚ`.  The single non-rational quantity in the
  engine, `sprint_data['hours'].std()` (a square root), is passed to
  `calculate_scenarios` as an explicit parameter `std`; only its value as a
  number ever matters to the properties below.
* Dates in the forecast engine are day numbers: booking dates (midnight
  timestamps produced by `pd.to_datetime`) are `Int`, the reference instant
  `today` (`datetime.now()`, which carries a time of day) is `ℚ`.
* Dates in the budget ledger are ISO `YYYY-MM-DD` strings, compared
  lexicographically exactly as SQLite compares `TEXT` values.
* Fallible operations return `Bool` success flags or are parameterised by an
  `Except`/`Option` failure argument mirroring the `try/except` structure of
  the Python code.
-/

/-! ## Constants (src/utils/forecast_engine.py, lines 12-15) -/

def SPRINT_DURATION_DAYS : Int := 14

def ANALYSIS_SPRINTS : Nat := 4

/-- The constant `SPRINT_WEIGHTS = [0.10, 0.20, 0.30, 0.40]` (old to new). -/
def SPRINT_WEIGHTS : List ℚ := [1/10, 2/10, 3/10, 4/10]

/-! ## Sprint aggregation (`ForecastEngine._calculate_sprint_data`) -/

/-- One row of `bookings_df`: a booking date (whole days) and its hours. -/
structure Booking where
  datumBuchung : Int
  stunden : ℚ
deriving DecidableEq

/-- Embedding of `days_ago = (self.today - DatumBuchung).dt.days` — pandas `.days` floors
the (possibly fractional) day difference — followed by
`sprint_number = days_ago // SPRINT_DURATION_DAYS` (Python floor division). -/
def sprintNumber (today : ℚ) (b : Booking) : Int :=
  (Int.floor (today - (b.datumBuchung : ℚ))).fdiv SPRINT_DURATION_DAYS

/-- The rows surviving the `sprint_number < ANALYSIS_SPRINTS` filter, each
tagged with its sprint number. -/
def recentWithSprint (today : ℚ) (bs : List Booking) : List (Int × Booking) :=
  (bs.map (fun b => (sprintNumber today b, b))).filter
    (fun p => p.1 < (ANALYSIS_SPRINTS : Int))

/-- One row of the aggregated `sprint_data` frame. -/
structure SprintRow where
  sprint_number : Int
  hours : ℚ
  sprint_start : Int
  sprint_end : Int
  weight : ℚ
deriving DecidableEq

/-- The weight lambda
`SPRINT_WEIGHTS[ANALYSIS_SPRINTS - 1 - x] if x < ANALYSIS_SPRINTS else 0`.
For `x < 0` the Python list indexing raises `IndexError` (the function never
returns); the `getD 0` totalisation is only ever used outside the domain on
which the source function completes. -/
def sprintWeight (x : Int) : ℚ :=
  if x < (ANALYSIS_SPRINTS : Int) then
    (SPRINT_WEIGHTS.get? ((ANALYSIS_SPRINTS : Int) - 1 - x).toNat).getD 0
  else 0

def listMinD (l : List Int) : Int := l.foldl min (l.headD 0)

def listMaxD (l : List Int) : Int := l.foldl max (l.headD 0)

/-- Embedding of `ForecastEngine._calculate_sprint_data`: bucket bookings into 14-day
sprints counted back from `today`, keep the 4 most recent buckets, and
aggregate hours / date ranges / weights per bucket.  `groupby` sorts the keys
ascending; on the domain where the source function completes (no booking in
the future, where the weight lambda would raise) every retained key lies in
`[0, ANALYSIS_SPRINTS)`, so the ascending key list is
`List.range ANALYSIS_SPRINTS` filtered to the keys present. -/
def calculate_sprint_data (today : ℚ) (bs : List Booking) : List SprintRow :=
  if bs.isEmpty then []
  else
    let recent := recentWithSprint today bs
    if recent.isEmpty then []
    else
      ((List.range ANALYSIS_SPRINTS).filter
          (fun n => recent.any (fun p => p.1 = (n : Int)))).map
        (fun n =>
          let grp := recent.filter (fun p => p.1 = (n : Int))
          { sprint_number := (n : Int)
            hours := (grp.map (fun p => p.2.stunden)).sum
            sprint_start := listMinD (grp.map (fun p => p.2.datumBuchung))
            sprint_end := listMaxD (grp.map (fun p => p.2.datumBuchung))
            weight := sprintWeight (n : Int) })

/-! ## Velocity estimation (`calculate_weighted_sprint_average`) -/

/-- Embedding of `ForecastEngine.calculate_weighted_sprint_average`. -/
def calculate_weighted_sprint_average (sd : List SprintRow) : ℚ :=
  if sd.length = 0 then 0
  else
    let weighted_hours := (sd.map (fun s => s.hours * s.weight)).sum
    let total_weight := (sd.map (fun s => s.weight)).sum
    if total_weight = 0 then (sd.map (fun s => s.hours)).sum / (sd.length : ℚ)
    else weighted_hours / total_weight

/-! ## Scenario projection (`calculate_scenarios`) -/

/-- One scenario record.  `sprints_remaining : WithTop ℚ` models the Python
float with `⊤` standing for `float('inf')`; `end_date : Option ℚ` models the
nullable projected date (`today` plus a fractional number of days). -/
structure Scenario where
  hours_per_sprint : ℚ
  sprints_remaining : WithTop ℚ
  end_date : Option ℚ
deriving DecidableEq

/-- The per-scenario projection loop (forecast_engine.py lines 143-155):
`if hours_per_sprint > 0` project `remaining / hours_per_sprint` sprints of
14 days each from `today`, else `inf` / `None`. -/
def projectScenario (today remaining hps : ℚ) : Scenario :=
  if 0 < hps then
    { hours_per_sprint := hps
      sprints_remaining := ((remaining / hps : ℚ) : WithTop ℚ)
      end_date := some (today + remaining / hps * (SPRINT_DURATION_DAYS : ℚ)) }
  else
    { hours_per_sprint := hps, sprints_remaining := ⊤, end_date := none }

/-- The dictionary returned by `calculate_scenarios`. -/
structure ScenarioResult where
  optimistic : Scenario
  realistic : Scenario
  pessimistic : Scenario
  base_hours_per_sprint : ℚ
  automatic_hours_per_sprint : ℚ
  confidence_factor : ℚ
  remaining_hours : ℚ
  total_booked : ℚ
  sprint_data : List SprintRow
deriving DecidableEq

/-- Embedding of `ForecastEngine.calculate_scenarios`.  `std` is the sample standard
deviation `sprint_data['hours'].std()` supplied as a parameter (it is the one
irrational quantity of the engine); `manual` is `manual_hours_per_sprint`,
used whenever it `is not None` (an explicit `None` check, not truthiness, so
`some 0` does override). -/
def calculate_scenarios (bookings : List Booking) (target_hours : ℚ)
    (today : ℚ) (std : ℚ) (manual : Option ℚ) : ScenarioResult :=
  let sd := calculate_sprint_data today bookings
  let auto := calculate_weighted_sprint_average sd
  let base := match manual with | some m => m | none => auto
  let c := if 2 ≤ sd.length then (if 0 < base then std / base else 1/5) else 1/5
  let booked := (bookings.map (fun b => b.stunden)).sum
  let remaining := max 0 (target_hours - booked)
  { optimistic := projectScenario today remaining (base * (1 + c * (3/2)))
    realistic := projectScenario today remaining base
    pessimistic := projectScenario today remaining (max (base * (1 - c * (3/2))) (1/10))
    base_hours_per_sprint := base
    automatic_hours_per_sprint := auto
    confidence_factor := c
    remaining_hours := remaining
    total_booked := booked
    sprint_data := sd }

/-! ## Velocity trend (`get_sprint_velocity_trend`) -/

structure TrendResult where
  trend : String
  slope : ℚ
  direction : Int
deriving DecidableEq

/-- Embedding of `np.sign`. -/
def qsign (x : ℚ) : Int := if 0 < x then 1 else if x < 0 then -1 else 0

/-- Embedding of `ForecastEngine.get_sprint_velocity_trend`: closed-form OLS slope of
`hours` against `sprint_number`, classified with the fixed ±2 threshold. -/
def get_sprint_velocity_trend (sd : List SprintRow) : TrendResult :=
  if sd.length < 2 then { trend := "insufficient_data", slope := 0, direction := 0 }
  else
    let X := sd.map (fun s => (s.sprint_number : ℚ))
    let y := sd.map (fun s => s.hours)
    let x_mean := X.sum / (sd.length : ℚ)
    let y_mean := y.sum / (sd.length : ℚ)
    let numerator := ((X.zip y).map (fun p => (p.1 - x_mean) * (p.2 - y_mean))).sum
    let denominator := (X.map (fun x => (x - x_mean) ^ 2)).sum
    let slope := if denominator ≠ 0 then numerator / denominator else 0
    let trend :=
      if 2 < slope then "increasing"
      else if slope < -2 then "decreasing"
      else "stable"
    { trend := trend, slope := slope, direction := qsign slope }

/-! ## Budget ledger (src/config/budget_database.py) -/

/-- The fixed `ChangeType` enum of the `CHECK` constraint. -/
def CHANGE_TYPES : List String := ["initial", "extension", "correction", "reduction"]

/-- One row of the `BudgetHistory` table.  `NOT NULL` columns are non-null by
construction; `Reference` is the one nullable column. -/
structure BudgetEntry where
  projectID : String
  activity : String
  hours : ℚ
  changeType : String
  validFrom : String
  reason : String
  reference : Option String
  createdBy : String
deriving DecidableEq

/-- The row-level constraints of the `BudgetHistory` DDL:
`Hours REAL NOT NULL CHECK(Hours >= 0)` and
`ChangeType ... CHECK(ChangeType IN ('initial','extension','correction','reduction'))`.
`Reason TEXT NOT NULL` excludes only SQL `NULL`, which a Python `str`
argument never is — the empty string passes. -/
def checksPass (e : BudgetEntry) : Bool :=
  (0 ≤ e.hours) && (CHANGE_TYPES.contains e.changeType)

/-- Embedding of `BudgetDatabaseConfig.save_budget_entry` composed with
`execute_non_query`: a constraint violation raises inside the connection
context manager, which rolls back; the exception is caught and `False`
returned with the ledger unchanged.  On success the row is committed and
`True` returned.  `reference if reference else None` is a truthiness check,
so an empty-string reference is stored as `NULL`. -/
def save_budget_entry (ledger : List BudgetEntry)
    (project_id activity : String) (hours : ℚ)
    (change_type valid_from reason : String)
    (reference : Option String) (created_by : String) : Bool × List BudgetEntry :=
  let e : BudgetEntry :=
    { projectID := project_id
      activity := activity
      hours := hours
      changeType := change_type
      validFrom := valid_from
      reason := reason
      reference := match reference with
        | some r => if r = "" then none else some r
        | none => none
      createdBy := created_by }
  if checksPass e then (true, ledger ++ [e]) else (false, ledger)

/-- SQLite's BINARY collation on `TEXT`: bytewise (here codepoint-wise,
which agrees on these ASCII date strings) lexicographic order. -/
def textLe : List Char → List Char → Bool
  | [], _ => true
  | _ :: _, [] => false
  | a :: as, b :: bs => if a = b then textLe as bs else decide (a < b)

/-- Comparison `ValidFrom <= ?` as SQLite evaluates it on ISO date strings. -/
def dateLe (a b : String) : Bool := textLe a.data b.data

/-- The `WHERE` clause of `get_budget_at_date`:
`ProjectID = ? AND Activity = ? AND ValidFrom <= ?`. -/
def qualifies (p a d : String) (e : BudgetEntry) : Bool :=
  (e.projectID = p) && (e.activity = a) && dateLe e.validFrom d

/-- Embedding of `BudgetDatabaseConfig.get_budget_at_date` on a reachable store:
`COALESCE(SUM(Hours), 0)` over the qualifying rows (the empty sum is `0`). -/
def get_budget_at_date (ledger : List BudgetEntry) (p a target_date : String) : ℚ :=
  ((ledger.filter (qualifies p a target_date)).map (fun e => e.hours)).sum

/-- One attempt at the as-of-date aggregate query: `.ok` carries the single
`TotalHours` row, `.error` a raised storage/connectivity exception.  The
query is attempted exactly once (no retry loop exists in the source). -/
def run_budget_query (ledger : List BudgetEntry) (p a d : String)
    (failure : Option String) : Except String ℚ :=
  match failure with
  | some e => Except.error e
  | none => Except.ok (get_budget_at_date ledger p a d)

/-- Embedding of `BudgetDatabaseConfig.execute_query`: on any exception it logs and
returns an empty DataFrame, here `none`. -/
def execute_query_sum (attempt : Except String ℚ) : Option ℚ :=
  match attempt with
  | Except.ok v => some v
  | Except.error _ => none

/-- Embedding of `get_budget_at_date` including the `execute_query` error path: when the
returned frame is empty the function falls through to `return 0.0`. -/
def get_budget_at_date_run (ledger : List BudgetEntry) (p a d : String)
    (failure : Option String) : ℚ :=
  match execute_query_sum (run_budget_query ledger p a d failure) with
  | some v => v
  | none => 0

/-- Embedding of `save_budget_entry` when the store itself may be unreachable: the
exception is caught inside `execute_non_query`, which returns `False`
without committing anything. -/
def save_budget_entry_run (failure : Option String) (ledger : List BudgetEntry)
    (project_id activity : String) (hours : ℚ)
    (change_type valid_from reason : String)
    (reference : Option String) (created_by : String) : Bool × List BudgetEntry :=
  match failure with
  | some _ => (false, ledger)
  | none =>
    save_budget_entry ledger project_id activity hours change_type valid_from
      reason reference created_by

/-! ## Override store and scenario UI wiring (src/components/forecast_ui.py) -/

/-- A stored forecast override as returned by `load_forecast_overrides`
(which already defaults a missing `active` field to `true`). -/
structure ForecastOverride where
  hours_per_sprint : ℚ
  reason : String
  active : Bool
deriving DecidableEq

/-- Fresh-session value `bool(overrides and overrides.get('active', True))`
(forecast_ui.py line 58, fresh session state). -/
def session_use (ov : Option ForecastOverride) : Bool :=
  match ov with
  | some o => o.active
  | none => false

/-- Fresh-session value of `st.session_state[k_hours]`:
`float(overrides['hours_per_sprint']) if (overrides and overrides.get('active', True)) else float(auto_value)`
(forecast_ui.py line 61, fresh session state). -/
def session_hours (ov : Option ForecastOverride) (auto : ℚ) : ℚ :=
  match ov with
  | some o => if o.active then o.hours_per_sprint else auto
  | none => auto

/-- Selection `active_hours = st.session_state[k_hours] if st.session_state[k_use] else None`
(forecast_ui.py line 116). -/
def active_hours (ov : Option ForecastOverride) (auto : ℚ) : Option ℚ :=
  if session_use ov then some (session_hours ov auto) else none

/-- The base-velocity selection of `render_forecast_scenarios`: build the
engine, load the stored override, and call `calculate_scenarios` with the
session's active manual value. -/
def render_forecast_base (bookings : List Booking) (target today std : ℚ)
    (ov : Option ForecastOverride) : ScenarioResult :=
  calculate_scenarios bookings target today std
    (active_hours ov
      (calculate_weighted_sprint_average (calculate_sprint_data today bookings)))

/-- The two-entry ledger of the spec's ledger-additivity example:
100h valid from 2024-01-01 and 50h valid from 2024-03-01. -/
def budgetExampleLedger : List BudgetEntry :=
  [{ projectID := "p", activity := "a", hours := 100, changeType := "initial",
     validFrom := "2024-01-01", reason := "contract", reference := none, createdBy := "u" },
   { projectID := "p", activity := "a", hours := 50, changeType := "extension",
     validFrom := "2024-03-01", reason := "extension", reference := none, createdBy := "u" }]
/-- Helper: the projection loop never changes `hours_per_sprint`. -/
theorem projectScenario_hours (today remaining hps : ℚ) :
    (projectScenario today remaining hps).hours_per_sprint = hps := by
  unfold projectScenario
  split <;> rfl

/-- Helper: what the projection loop does in each branch of `hours_per_sprint > 0`. -/
theorem projectScenario_spec (today remaining hps : ℚ) :
    (0 < hps →
      (projectScenario today remaining hps).sprints_remaining
          = ((remaining / hps : ℚ) : WithTop ℚ) ∧
      (projectScenario today remaining hps).end_date
          = some (today + remaining / hps * 14)) ∧
    (hps ≤ 0 →
      (projectScenario today remaining hps).sprints_remaining = ⊤ ∧
      (projectScenario today remaining hps).end_date = none) := by
  unfold projectScenario
  constructor
  · intro h
    rw [if_pos h]
    refine ⟨rfl, ?_⟩
    norm_num [SPRINT_DURATION_DAYS]
  · intro h
    rw [if_neg (not_lt.mpr h)]
    exact ⟨rfl, rfl⟩

/-- Helper: the three scenarios of `calculate_scenarios` are the projection loop
applied to the optimistic / realistic / pessimistic velocity formulas. -/
theorem calc_scenario_fields (bookings : List Booking) (target today std : ℚ)
    (manual : Option ℚ) :
    (calculate_scenarios bookings target today std manual).optimistic
        = projectScenario today (calculate_scenarios bookings target today std manual).remaining_hours
            ((calculate_scenarios bookings target today std manual).base_hours_per_sprint *
              (1 + (calculate_scenarios bookings target today std manual).confidence_factor * (3/2))) ∧
    (calculate_scenarios bookings target today std manual).realistic
        = projectScenario today (calculate_scenarios bookings target today std manual).remaining_hours
            (calculate_scenarios bookings target today std manual).base_hours_per_sprint ∧
    (calculate_scenarios bookings target today std manual).pessimistic
        = projectScenario today (calculate_scenarios bookings target today std manual).remaining_hours
            (max ((calculate_scenarios bookings target today std manual).base_hours_per_sprint *
              (1 - (calculate_scenarios bookings target today std manual).confidence_factor * (3/2))) (1/10)) := by
  exact ⟨rfl, rfl, rfl⟩

/-- Claim C1 (amended): for every scenario computation whose `base_hours` is at
least the pessimistic floor `0.1` and whose `confidence_factor` is non-negative,
`optimistic.hours_per_sprint ≥ realistic.hours_per_sprint ≥
pessimistic.hours_per_sprint ≥ 0.1`.  The original claim asked this for every
`base_hours > 0`; the counterexample below shows it fails for
`0 < base_hours < 0.1`. -/
theorem C1_scenario_ordering (bookings : List Booking) (target today std : ℚ)
    (manual : Option ℚ)
    (hb : 1/10 ≤ (calculate_scenarios bookings target today std manual).base_hours_per_sprint)
    (hc : 0 ≤ (calculate_scenarios bookings target today std manual).confidence_factor) :
    (calculate_scenarios bookings target today std manual).realistic.hours_per_sprint ≤
      (calculate_scenarios bookings target today std manual).optimistic.hours_per_sprint ∧
    (calculate_scenarios bookings target today std manual).pessimistic.hours_per_sprint ≤
      (calculate_scenarios bookings target today std manual).realistic.hours_per_sprint ∧
    1/10 ≤ (calculate_scenarios bookings target today std manual).pessimistic.hours_per_sprint := by
  obtain ⟨ho, hr, hp⟩ := calc_scenario_fields bookings target today std manual
  rw [ho, hr, hp, projectScenario_hours, projectScenario_hours, projectScenario_hours]
  set b := (calculate_scenarios bookings target today std manual).base_hours_per_sprint with hbdef
  set c := (calculate_scenarios bookings target today std manual).confidence_factor with hcdef
  refine ⟨?_, ?_, le_max_right _ _⟩
  · nlinarith
  · refine max_le ?_ (by linarith)
    nlinarith

/-- Claim C1 counterexample: with a manual override of `0.05` hours per sprint
(`base_hours = 1/20 > 0`, `confidence_factor = 1/5 ≥ 0`) the pessimistic
scenario is floored at `0.1`, which is strictly greater than the realistic
scenario's `1/20` — refuting `realistic ≥ pessimistic` as claimed. -/
theorem C1_counterexample :
    0 < (calculate_scenarios [] 10 0 0 (some (1/20))).base_hours_per_sprint ∧
    0 ≤ (calculate_scenarios [] 10 0 0 (some (1/20))).confidence_factor ∧
    (calculate_scenarios [] 10 0 0 (some (1/20))).realistic.hours_per_sprint <
      (calculate_scenarios [] 10 0 0 (some (1/20))).pessimistic.hours_per_sprint := by
  norm_num [calculate_scenarios, calculate_sprint_data, calculate_weighted_sprint_average,
    projectScenario, recentWithSprint]

/-- Claim C1 witness: the amended ordering at a concrete input
(`base_hours = 1`, `confidence_factor = 1/5`). -/
theorem C1_scenario_ordering_witness :
    (calculate_scenarios [] 10 0 0 (some 1)).realistic.hours_per_sprint ≤
      (calculate_scenarios [] 10 0 0 (some 1)).optimistic.hours_per_sprint ∧
    (calculate_scenarios [] 10 0 0 (some 1)).pessimistic.hours_per_sprint ≤
      (calculate_scenarios [] 10 0 0 (some 1)).realistic.hours_per_sprint ∧
    1/10 ≤ (calculate_scenarios [] 10 0 0 (some 1)).pessimistic.hours_per_sprint :=
  C1_scenario_ordering [] 10 0 0 (some 1)
    (by norm_num [calculate_scenarios, calculate_sprint_data, calculate_weighted_sprint_average,
      recentWithSprint])
    (by norm_num [calculate_scenarios, calculate_sprint_data, calculate_weighted_sprint_average,
      recentWithSprint])

/-- Claim C2 (amended): for every scenario produced by `calculate_scenarios`,
if its `hours_per_sprint > 0` then `sprints_remaining = remaining /
hours_per_sprint` and `end_date = today + sprints_remaining × 14` days — even
when the remaining budget is `0`; `sprints_remaining = +∞` with `end_date =
null` occurs exactly when `hours_per_sprint ≤ 0`.  The original claim also
required `remaining ≤ 0` to yield `+∞`/`null`; the counterexample below
refutes that. -/
theorem C2_projection (bookings : List Booking) (target today std : ℚ) (manual : Option ℚ) :
    ∀ s ∈ [(calculate_scenarios bookings target today std manual).optimistic,
           (calculate_scenarios bookings target today std manual).realistic,
           (calculate_scenarios bookings target today std manual).pessimistic],
      (0 < s.hours_per_sprint →
        s.sprints_remaining
            = (((calculate_scenarios bookings target today std manual).remaining_hours /
                  s.hours_per_sprint : ℚ) : WithTop ℚ) ∧
        s.end_date
            = some (today + (calculate_scenarios bookings target today std manual).remaining_hours /
                  s.hours_per_sprint * 14)) ∧
      (s.hours_per_sprint ≤ 0 → s.sprints_remaining = ⊤ ∧ s.end_date = none) := by
  obtain ⟨ho, hr, hp⟩ := calc_scenario_fields bookings target today std manual
  intro s hs
  simp only [List.mem_cons, List.not_mem_nil, or_false] at hs
  rcases hs with h | h | h
  · rw [h, ho, projectScenario_hours]
    exact projectScenario_spec _ _ _
  · rw [h, hr, projectScenario_hours]
    exact projectScenario_spec _ _ _
  · rw [h, hp, projectScenario_hours]
    exact projectScenario_spec _ _ _

/-- Claim C2 counterexample: with the budget already exhausted
(`remaining_hours = 0`) but a positive velocity, the realistic scenario gets
`sprints_remaining = 0` and `end_date = today` (non-null), not `+∞`/`null` as
claimed for `remaining ≤ 0`. -/
theorem C2_counterexample :
    (calculate_scenarios [⟨0, 10⟩] 10 0 0 (some 1)).remaining_hours ≤ 0 ∧
    0 < (calculate_scenarios [⟨0, 10⟩] 10 0 0 (some 1)).realistic.hours_per_sprint ∧
    (calculate_scenarios [⟨0, 10⟩] 10 0 0 (some 1)).realistic.sprints_remaining
        = ((0 : ℚ) : WithTop ℚ) ∧
    (calculate_scenarios [⟨0, 10⟩] 10 0 0 (some 1)).realistic.end_date = some 0 := by
  norm_num [calculate_scenarios, calculate_sprint_data, calculate_weighted_sprint_average,
    projectScenario, recentWithSprint, sprintNumber, sprintWeight, listMinD, listMaxD,
    SPRINT_DURATION_DAYS, ANALYSIS_SPRINTS, SPRINT_WEIGHTS]

/-- Claim C2 witness: the amended projection rule at a concrete input
(realistic scenario with velocity `1` and `10` remaining hours). -/
theorem C2_projection_witness :
    (calculate_scenarios [] 10 0 0 (some 1)).realistic.sprints_remaining
        = (((calculate_scenarios [] 10 0 0 (some 1)).remaining_hours /
              (calculate_scenarios [] 10 0 0 (some 1)).realistic.hours_per_sprint : ℚ) : WithTop ℚ) ∧
    (calculate_scenarios [] 10 0 0 (some 1)).realistic.end_date
        = some (0 + (calculate_scenarios [] 10 0 0 (some 1)).remaining_hours /
              (calculate_scenarios [] 10 0 0 (some 1)).realistic.hours_per_sprint * 14) :=
  (C2_projection [] 10 0 0 (some 1) (calculate_scenarios [] 10 0 0 (some 1)).realistic
    (by simp)).1
    (by norm_num [calculate_scenarios, calculate_sprint_data, calculate_weighted_sprint_average,
      projectScenario, recentWithSprint])

/-- Claim C10: a manual override of `0.0` is honoured (the `None` check, not
truthiness), so `base_hours = 0`: the realistic scenario has velocity `0`,
`sprints_remaining = +∞` and no end date, while the pessimistic scenario is
floored at `0.1` hours per sprint and — with remaining hours positive —
projects the finite `sprints_remaining = remaining / 0.1` and a concrete
`end_date`. -/
theorem C10_zero_override (bookings : List Booking) (target today std : ℚ)
    (_hrem : 0 < (calculate_scenarios bookings target today std (some 0)).remaining_hours) :
    (calculate_scenarios bookings target today std (some 0)).base_hours_per_sprint = 0 ∧
    (calculate_scenarios bookings target today std (some 0)).realistic.hours_per_sprint = 0 ∧
    (calculate_scenarios bookings target today std (some 0)).realistic.sprints_remaining = ⊤ ∧
    (calculate_scenarios bookings target today std (some 0)).realistic.end_date = none ∧
    (calculate_scenarios bookings target today std (some 0)).pessimistic.hours_per_sprint = 1/10 ∧
    (calculate_scenarios bookings target today std (some 0)).pessimistic.sprints_remaining
        = (((calculate_scenarios bookings target today std (some 0)).remaining_hours / (1/10) : ℚ) :
            WithTop ℚ) ∧
    (calculate_scenarios bookings target today std (some 0)).pessimistic.end_date
        = some (today + (calculate_scenarios bookings target today std (some 0)).remaining_hours /
              (1/10) * 14) := by
  obtain ⟨ho, hr, hp⟩ := calc_scenario_fields bookings target today std (some 0)
  have hbase : (calculate_scenarios bookings target today std (some 0)).base_hours_per_sprint = 0 := rfl
  have hpess : max ((calculate_scenarios bookings target today std (some 0)).base_hours_per_sprint *
      (1 - (calculate_scenarios bookings target today std (some 0)).confidence_factor * (3/2))) (1/10)
      = 1/10 := by
    rw [hbase]
    norm_num
  refine ⟨hbase, ?_, ?_, ?_, ?_, ?_, ?_⟩
  · rw [hr, projectScenario_hours, hbase]
  · rw [hr, hbase]
    exact ((projectScenario_spec _ _ _).2 le_rfl).1
  · rw [hr, hbase]
    exact ((projectScenario_spec _ _ _).2 le_rfl).2
  · rw [hp, projectScenario_hours, hpess]
  · rw [hp, hpess]
    exact ((projectScenario_spec _ _ _).1 (by norm_num)).1
  · rw [hp, hpess]
    exact ((projectScenario_spec _ _ _).1 (by norm_num)).2

/-- Claim C10 witness: the zero override on an empty booking series with `10`
target hours. -/
theorem C10_zero_override_witness :
    (calculate_scenarios [] 10 0 0 (some 0)).base_hours_per_sprint = 0 ∧
    (calculate_scenarios [] 10 0 0 (some 0)).realistic.hours_per_sprint = 0 ∧
    (calculate_scenarios [] 10 0 0 (some 0)).realistic.sprints_remaining = ⊤ ∧
    (calculate_scenarios [] 10 0 0 (some 0)).realistic.end_date = none ∧
    (calculate_scenarios [] 10 0 0 (some 0)).pessimistic.hours_per_sprint = 1/10 ∧
    (calculate_scenarios [] 10 0 0 (some 0)).pessimistic.sprints_remaining
        = (((calculate_scenarios [] 10 0 0 (some 0)).remaining_hours / (1/10) : ℚ) : WithTop ℚ) ∧
    (calculate_scenarios [] 10 0 0 (some 0)).pessimistic.end_date
        = some (0 + (calculate_scenarios [] 10 0 0 (some 0)).remaining_hours / (1/10) * 14) :=
  C10_zero_override [] 10 0 0
    (by norm_num [calculate_scenarios, calculate_sprint_data, calculate_weighted_sprint_average,
      recentWithSprint])

/-- Claim C3 counterexample: `save_budget_entry` with an empty `reason`
(valid hours and change type) reports success and appends one entry — the
`Reason TEXT NOT NULL` column does not reject the empty string, refuting the
claim that an empty reason is rejected with the ledger unchanged. -/
theorem C3_counterexample :
    (save_budget_entry [] "P" "A" 10 "initial" "2024-01-01" "" none "u").1 = true ∧
    (save_budget_entry [] "P" "A" 10 "initial" "2024-01-01" "" none "u").2.length = 1 := by
  norm_num [save_budget_entry, checksPass, CHANGE_TYPES]

/-- Claim C3 (amended): `save_budget_entry` succeeds iff `hours ≥ 0` and
`change_type` is one of the four enum values; on success exactly one entry is
appended, on rejection the ledger is unchanged (nothing partially persists).
An empty `reason` is not rejected — the counterexample above shows the
original claim's empty-reason clause fails. -/
theorem C3_save_rules (ledger : List BudgetEntry) (p a : String) (hrs : ℚ)
    (ct vf reason : String) (ref : Option String) (cb : String) :
    ((save_budget_entry ledger p a hrs ct vf reason ref cb).1 = true ↔
        (0 ≤ hrs ∧ ct ∈ CHANGE_TYPES)) ∧
    ((0 ≤ hrs ∧ ct ∈ CHANGE_TYPES) →
      ∃ e : BudgetEntry,
        (save_budget_entry ledger p a hrs ct vf reason ref cb).2 = ledger ++ [e] ∧
        e.hours = hrs ∧ e.changeType = ct ∧ e.reason = reason) ∧
    (¬ (0 ≤ hrs ∧ ct ∈ CHANGE_TYPES) →
      (save_budget_entry ledger p a hrs ct vf reason ref cb).2 = ledger) := by
  simp only [save_budget_entry, checksPass, List.contains, List.elem_eq_mem, Bool.and_eq_true,
    decide_eq_true_eq]
  by_cases h1 : 0 ≤ hrs <;> by_cases h2 : ct ∈ CHANGE_TYPES <;> simp [h1, h2]

/-- Claim C3 witness: a negative-hours write is rejected and leaves the
ledger unchanged. -/
theorem C3_save_rules_witness :
    (save_budget_entry [] "P" "A" (-1) "initial" "2024-01-01" "because" none "u").2 = [] :=
  (C3_save_rules [] "P" "A" (-1) "initial" "2024-01-01" "because" none "u").2.2
    (by norm_num)

/-- Claim C4: `get_budget_at_date` returns the sum of `hours` over exactly the
entries of that (project, activity) with `valid_from ≤ target_date`, returns
`0.0` when no entry qualifies, and on the spec's two-entry example ledger
yields `100.0`, `150.0` and `0.0` at the three stated dates. -/
theorem C4_budget_at_date :
    (∀ (ledger : List BudgetEntry) (p a d : String),
      get_budget_at_date ledger p a d =
        ((ledger.filter (fun e => decide (e.projectID = p ∧ e.activity = a ∧
            dateLe e.validFrom d = true))).map (fun e => e.hours)).sum) ∧
    (∀ (ledger : List BudgetEntry) (p a d : String),
      (∀ e ∈ ledger, ¬ (e.projectID = p ∧ e.activity = a ∧ dateLe e.validFrom d = true)) →
      get_budget_at_date ledger p a d = 0) ∧
    (get_budget_at_date budgetExampleLedger "p" "a" "2024-02-01" = 100 ∧
     get_budget_at_date budgetExampleLedger "p" "a" "2024-04-01" = 150 ∧
     get_budget_at_date budgetExampleLedger "p" "a" "2023-12-01" = 0) := by
  have hq : ∀ (p a d : String) (e : BudgetEntry),
      qualifies p a d e = decide (e.projectID = p ∧ e.activity = a ∧ dateLe e.validFrom d = true) := by
    intro p a d e
    simp [qualifies, Bool.and_assoc]
  refine ⟨?_, ?_, ?_, ?_, ?_⟩
  · intro ledger p a d
    unfold get_budget_at_date
    rw [List.filter_congr (fun e _ => hq p a d e)]
  · intro ledger p a d hnone
    unfold get_budget_at_date
    rw [List.filter_eq_nil_iff.mpr]
    · rfl
    · intro e he
      rw [hq p a d e]
      simpa using hnone e he
  · norm_num +decide [get_budget_at_date, qualifies, dateLe, List.filter, textLe,
      budgetExampleLedger]
  · norm_num +decide [get_budget_at_date, qualifies, dateLe, List.filter, textLe,
      budgetExampleLedger]
  · norm_num +decide [get_budget_at_date, qualifies, dateLe, List.filter, textLe,
      budgetExampleLedger]

/-- Claim C4 witness: the no-qualifying-entries case on the empty ledger. -/
theorem C4_budget_at_date_witness :
    get_budget_at_date [] "p" "a" "2024-01-01" = 0 :=
  C4_budget_at_date.2.1 [] "p" "a" "2024-01-01" (by simp)

/-- Claim C9 counterexample: a storage failure during `get_budget_at_date` is
not propagated — the caught exception yields an ordinary `0.0`, identical to
the result on an empty ledger, although the same ledger read successfully
holds `150` hours. -/
theorem C9_counterexample :
    get_budget_at_date_run budgetExampleLedger "p" "a" "2024-06-01" (some "database unreachable") = 0 ∧
    get_budget_at_date_run [] "p" "a" "2024-06-01" none = 0 ∧
    get_budget_at_date budgetExampleLedger "p" "a" "2024-06-01" = 150 := by
  refine ⟨rfl, rfl, ?_⟩
  norm_num +decide [get_budget_at_date, qualifies, dateLe, List.filter, textLe,
    budgetExampleLedger]

/-- Claim C9 (amended): storage failures during ledger writes are reported to
the caller (`save_budget_entry` returns `false` and persists nothing, with no
internal retry), but storage failures during `get_budget_at_date` are
swallowed: `execute_query` catches the exception and returns an empty result,
so the caller receives an ordinary `0.0` indistinguishable from an empty
ledger. -/
theorem C9_error_swallowing (ledger : List BudgetEntry) (p a d err : String)
    (hrs : ℚ) (ct vf reason : String) (ref : Option String) (cb : String) :
    get_budget_at_date_run ledger p a d (some err) = 0 ∧
    get_budget_at_date_run ledger p a d (some err) = get_budget_at_date_run [] p a d none ∧
    save_budget_entry_run (some err) ledger p a hrs ct vf reason ref cb = (false, ledger) :=
  ⟨rfl, rfl, rfl⟩

/-- Claim C6: `calculate_weighted_sprint_average` returns
`Σ(hours × weight) / Σ(weight)`; an empty sprint set yields `0.0`; a
non-empty sprint set of total weight `0` yields the unweighted arithmetic
mean of `hours`. -/
theorem C6_weighted_average (sd : List SprintRow) :
    (sd = [] → calculate_weighted_sprint_average sd = 0) ∧
    (sd ≠ [] → (sd.map (fun s => s.weight)).sum = 0 →
      calculate_weighted_sprint_average sd = (sd.map (fun s => s.hours)).sum / (sd.length : ℚ)) ∧
    ((sd.map (fun s => s.weight)).sum ≠ 0 →
      calculate_weighted_sprint_average sd =
        (sd.map (fun s => s.hours * s.weight)).sum / (sd.map (fun s => s.weight)).sum) := by
  refine ⟨?_, ?_, ?_⟩
  · intro h
    simp [h, calculate_weighted_sprint_average]
  · intro hne hw
    have hlen : sd.length ≠ 0 := by simpa [List.length_eq_zero] using hne
    simp [calculate_weighted_sprint_average, hlen, hw]
  · intro hw
    have hne : sd ≠ [] := by
      rintro rfl
      simp at hw
    have hlen : sd.length ≠ 0 := by simpa [List.length_eq_zero] using hne
    simp [calculate_weighted_sprint_average, hlen, hw]

/-- Claim C6 witness: the weighted-average branch on a one-sprint set. -/
theorem C6_weighted_average_witness :
    calculate_weighted_sprint_average
      [{ sprint_number := 0, hours := 60, sprint_start := 0, sprint_end := 0, weight := 4/10 }]
      = 60 := by
  have h := (C6_weighted_average
    [{ sprint_number := 0, hours := 60, sprint_start := 0, sprint_end := 0, weight := 4/10 }]).2.2
    (by norm_num)
  rw [h]
  norm_num

/-- Claim C8: with a stored override whose `active` flag is `false`, the
scenario computation uses the computed weighted sprint average as
`base_hours`, never the stored `hours_per_sprint`, even though the record
exists; the stored value is used exactly when `active = true`. -/
theorem C8_override_fallback (bookings : List Booking) (target today std : ℚ)
    (o : ForecastOverride) :
    (o.active = false →
      (render_forecast_base bookings target today std (some o)).base_hours_per_sprint
        = calculate_weighted_sprint_average (calculate_sprint_data today bookings)) ∧
    (o.active = true →
      (render_forecast_base bookings target today std (some o)).base_hours_per_sprint
        = o.hours_per_sprint) := by
  constructor
  · intro h
    unfold render_forecast_base
    rw [show active_hours (some o)
        (calculate_weighted_sprint_average (calculate_sprint_data today bookings)) = none by
      simp [active_hours, session_use, h]]
    rfl
  · intro h
    unfold render_forecast_base
    rw [show active_hours (some o)
        (calculate_weighted_sprint_average (calculate_sprint_data today bookings))
          = some o.hours_per_sprint by
      simp [active_hours, session_use, session_hours, h]]
    rfl

/-- Claim C8 witness: an inactive stored override of `50` hours per sprint is
ignored in favour of the computed average. -/
theorem C8_override_fallback_witness :
    (render_forecast_base [] 10 0 0
      (some { hours_per_sprint := 50, reason := "vacation", active := false })).base_hours_per_sprint
      = calculate_weighted_sprint_average (calculate_sprint_data 0 []) :=
  (C8_override_fallback [] 10 0 0
    { hours_per_sprint := 50, reason := "vacation", active := false }).1 rfl

/-- Helper: a sum of squared deviations is non-negative. -/
theorem sum_sq_dev_nonneg (l : List ℚ) (m : ℚ) :
    0 ≤ (l.map (fun v => (v - m) ^ 2)).sum := by
  apply List.sum_nonneg
  intro x hx
  obtain ⟨v, _, rfl⟩ := List.mem_map.mp hx
  positivity

/-- Helper: a sum of squared deviations is positive once one element differs
from the reference point. -/
theorem sum_sq_dev_pos (l : List ℚ) (m x : ℚ) (hx : x ∈ l) (hne : x ≠ m) :
    0 < (l.map (fun v => (v - m) ^ 2)).sum := by
  induction l with
  | nil => cases hx
  | cons a t ih =>
    rw [List.map_cons, List.sum_cons]
    rcases List.mem_cons.mp hx with rfl | hxt
    · have h1 : 0 < (x - m) ^ 2 := sq_pos_of_ne_zero (sub_ne_zero.mpr hne)
      have h2 := sum_sq_dev_nonneg t m
      linarith
    · have h1 : 0 ≤ (a - m) ^ 2 := by positivity
      have h2 := ih hxt
      linarith

/-- Claim C7: with at least two sprints of non-identical sprint indices,
`get_sprint_velocity_trend` computes the ordinary least-squares slope of
`hours` against `sprint_number` (the denominator is non-zero, so the
division-guard is never taken) and classifies it as `increasing` iff
`slope > 2`, `decreasing` iff `slope < -2` and `stable` otherwise; with fewer
than two sprints it returns `insufficient_data` with slope `0`. -/
theorem C7_trend (sd : List SprintRow) :
    (sd.length < 2 →
      get_sprint_velocity_trend sd
        = { trend := "insufficient_data", slope := 0, direction := 0 }) ∧
    (2 ≤ sd.length →
      (∃ s ∈ sd, ∃ t ∈ sd, s.sprint_number ≠ t.sprint_number) →
      ((sd.map (fun s => (s.sprint_number : ℚ))).map
          (fun v => (v - (sd.map (fun s => (s.sprint_number : ℚ))).sum / (sd.length : ℚ)) ^ 2)).sum ≠ 0 ∧
      (get_sprint_velocity_trend sd).slope =
        (((sd.map (fun s => (s.sprint_number : ℚ))).zip (sd.map (fun s => s.hours))).map
            (fun pr => (pr.1 - (sd.map (fun s => (s.sprint_number : ℚ))).sum / (sd.length : ℚ)) *
              (pr.2 - (sd.map (fun s => s.hours)).sum / (sd.length : ℚ)))).sum /
          ((sd.map (fun s => (s.sprint_number : ℚ))).map
            (fun v => (v - (sd.map (fun s => (s.sprint_number : ℚ))).sum / (sd.length : ℚ)) ^ 2)).sum ∧
      ((get_sprint_velocity_trend sd).trend = "increasing"
          ↔ 2 < (get_sprint_velocity_trend sd).slope) ∧
      ((get_sprint_velocity_trend sd).trend = "decreasing"
          ↔ (get_sprint_velocity_trend sd).slope < -2) ∧
      ((get_sprint_velocity_trend sd).trend = "stable"
          ↔ ((get_sprint_velocity_trend sd).slope ≤ 2 ∧ -2 ≤ (get_sprint_velocity_trend sd).slope))) := by
  constructor
  · intro h
    unfold get_sprint_velocity_trend
    rw [if_pos h]
  · intro hlen hex
    have hnlt : ¬ sd.length < 2 := not_lt.mpr hlen
    obtain ⟨s, hs, t, ht, hne⟩ := hex
    have hcast : ((s.sprint_number : ℚ)) ≠ ((t.sprint_number : ℚ)) := by
      exact_mod_cast hne
    have hx : ∃ x ∈ sd.map (fun s => (s.sprint_number : ℚ)),
        x ≠ (sd.map (fun s => (s.sprint_number : ℚ))).sum / (sd.length : ℚ) := by
      rcases eq_or_ne ((s.sprint_number : ℚ))
          ((sd.map (fun s => (s.sprint_number : ℚ))).sum / (sd.length : ℚ)) with h | h
      · refine ⟨(t.sprint_number : ℚ), List.mem_map_of_mem _ ht, ?_⟩
        rw [← h]
        exact hcast.symm
      · exact ⟨(s.sprint_number : ℚ), List.mem_map_of_mem _ hs, h⟩
    obtain ⟨x, hxX, hxm⟩ := hx
    have hden := sum_sq_dev_pos (sd.map (fun s => (s.sprint_number : ℚ)))
      ((sd.map (fun s => (s.sprint_number : ℚ))).sum / (sd.length : ℚ)) x hxX hxm
    refine ⟨hden.ne', ?_⟩
    unfold get_sprint_velocity_trend
    rw [if_neg hnlt]
    simp only [if_pos hden.ne']
    set slope := (((sd.map (fun s => (s.sprint_number : ℚ))).zip (sd.map (fun s => s.hours))).map
        (fun pr => (pr.1 - (sd.map (fun s => (s.sprint_number : ℚ))).sum / (sd.length : ℚ)) *
          (pr.2 - (sd.map (fun s => s.hours)).sum / (sd.length : ℚ)))).sum /
      ((sd.map (fun s => (s.sprint_number : ℚ))).map
        (fun v => (v - (sd.map (fun s => (s.sprint_number : ℚ))).sum / (sd.length : ℚ)) ^ 2)).sum
      with hslope
    refine ⟨trivial, ?_, ?_, ?_⟩
    · by_cases h1 : 2 < slope
      · simp [h1]
      · by_cases h2 : slope < -2 <;> simp [h1, h2]
    · by_cases h1 : 2 < slope
      · have h2 : ¬ slope < -2 := by linarith
        simp [h1, h2]
      · by_cases h2 : slope < -2 <;> simp [h1, h2]
    · by_cases h1 : 2 < slope
      · rw [if_pos h1]
        constructor
        · intro h
          exact absurd h (by decide)
        · rintro ⟨ha, _⟩
          exact absurd h1 (not_lt.mpr ha)
      · by_cases h2 : slope < -2
        · rw [if_neg h1, if_pos h2]
          constructor
          · intro h
            exact absurd h (by decide)
          · rintro ⟨_, hb⟩
            exact absurd h2 (not_lt.mpr hb)
        · rw [if_neg h1, if_neg h2]
          exact ⟨fun _ => ⟨not_lt.mp h1, not_lt.mp h2⟩, fun _ => rfl⟩

/-- Claim C7 witness: the insufficient-data branch on the empty sprint set. -/
theorem C7_trend_witness :
    get_sprint_velocity_trend ([] : List SprintRow)
      = { trend := "insufficient_data", slope := 0, direction := 0 } :=
  (C7_trend []).1 (by norm_num)

/-- Helper: how the recent-bookings filter treats one more booking. -/
theorem recentWithSprint_cons (today : ℚ) (b : Booking) (t : List Booking) :
    recentWithSprint today (b :: t)
      = if sprintNumber today b < (ANALYSIS_SPRINTS : Int)
        then (sprintNumber today b, b) :: recentWithSprint today t
        else recentWithSprint today t := by
  by_cases h : sprintNumber today b < (ANALYSIS_SPRINTS : Int) <;>
    simp [recentWithSprint, List.filter_cons, h]

/-- Helper: the group of a sprint key `k < ANALYSIS_SPRINTS` inside the
filtered rows is exactly the bookings whose sprint number is `k`. -/
theorem recent_filter_eq (today : ℚ) (bs : List Booking) (k : Int)
    (hk : k < (ANALYSIS_SPRINTS : Int)) :
    (recentWithSprint today bs).filter (fun p => p.1 = k)
      = (bs.filter (fun b => sprintNumber today b = k)).map (fun b => (k, b)) := by
  induction bs with
  | nil => rfl
  | cons b t ih =>
    rw [recentWithSprint_cons, List.filter_cons]
    by_cases hb : sprintNumber today b = k
    · have h4 : sprintNumber today b < (ANALYSIS_SPRINTS : Int) := by
        rw [hb]
        exact hk
      rw [if_pos h4, List.filter_cons]
      simp [hb, ih]
    · by_cases h4 : sprintNumber today b < (ANALYSIS_SPRINTS : Int)
      · rw [if_pos h4, List.filter_cons]
        simp [hb, ih]
      · rw [if_neg h4]
        simp [hb, ih]

/-- Claim C5: for bookings not dated after `today`, `_calculate_sprint_data`
assigns each booking `sprint_index = floor(days ago) div 14`, keeps only
`sprint_index < 4`, and produces per retained index one row whose hours are
the sum over that sprint's bookings, whose start/end are the min/max booking
date, and whose weight is `SPRINT_WEIGHTS[3 - sprint_index]`; an empty series
or one with every booking at least 4 sprints old yields an empty list. -/
theorem C5_sprint_aggregation (today : ℚ) (bs : List Booking)
    (_hpast : ∀ b ∈ bs, (b.datumBuchung : ℚ) ≤ today) :
    (bs = [] → calculate_sprint_data today bs = []) ∧
    ((∀ b ∈ bs, (ANALYSIS_SPRINTS : Int) ≤ sprintNumber today b) →
      calculate_sprint_data today bs = []) ∧
    (∀ row ∈ calculate_sprint_data today bs,
      0 ≤ row.sprint_number ∧ row.sprint_number < (ANALYSIS_SPRINTS : Int) ∧
      row.hours = ((bs.filter (fun b => sprintNumber today b = row.sprint_number)).map
        (fun b => b.stunden)).sum ∧
      row.sprint_start = listMinD ((bs.filter
        (fun b => sprintNumber today b = row.sprint_number)).map (fun b => b.datumBuchung)) ∧
      row.sprint_end = listMaxD ((bs.filter
        (fun b => sprintNumber today b = row.sprint_number)).map (fun b => b.datumBuchung)) ∧
      row.weight = (SPRINT_WEIGHTS.get? (3 - row.sprint_number).toNat).getD 0) ∧
    (∀ n : Int, 0 ≤ n → n < (ANALYSIS_SPRINTS : Int) →
      ((∃ b ∈ bs, sprintNumber today b = n) ↔
        ∃ row ∈ calculate_sprint_data today bs, row.sprint_number = n)) := by
  refine ⟨?_, ?_, ?_, ?_⟩
  · rintro rfl
    rfl
  · intro hall
    have hrec : recentWithSprint today bs = [] := by
      apply List.filter_eq_nil_iff.mpr
      intro p hp
      obtain ⟨b, hbbs, rfl⟩ := List.mem_map.mp hp
      simp [not_lt.mpr (hall b hbbs)]
    simp [calculate_sprint_data, hrec]
  · intro row hrow
    by_cases hbs : bs.isEmpty
    · simp [calculate_sprint_data, hbs] at hrow
    · by_cases hrec : (recentWithSprint today bs).isEmpty
      · simp [calculate_sprint_data, hbs, hrec] at hrow
      · simp only [calculate_sprint_data, hbs, hrec, Bool.false_eq_true, if_false,
          List.mem_map, List.mem_filter, List.mem_range] at hrow
        obtain ⟨a, ⟨ham, hany⟩, rfl⟩ := hrow
        obtain ⟨m, hm, rfl⟩ : ∃ m, m < ANALYSIS_SPRINTS ∧ a = (m : Int) := by
          simpa using ham
        have hk : ((m : Int)) < (ANALYSIS_SPRINTS : Int) := by
          exact_mod_cast hm
        dsimp only
        refine ⟨Int.natCast_nonneg m, hk, ?_, ?_, ?_, ?_⟩
        · rw [recent_filter_eq today bs (m : Int) hk, List.map_map]
          rfl
        · rw [recent_filter_eq today bs (m : Int) hk, List.map_map]
          rfl
        · rw [recent_filter_eq today bs (m : Int) hk, List.map_map]
          rfl
        · show sprintWeight (m : Int) = _
          unfold sprintWeight
          rw [if_pos hk]
          have h3 : (ANALYSIS_SPRINTS : Int) - 1 - (m : Int) = 3 - (m : Int) := by
            norm_num [ANALYSIS_SPRINTS]
          rw [h3]
  · intro n hn0 hn4
    constructor
    · rintro ⟨b, hb, hbn⟩
      have hbs : bs.isEmpty = false := by
        cases bs
        · cases hb
        · rfl
      have hpmem : (sprintNumber today b, b) ∈ recentWithSprint today bs := by
        unfold recentWithSprint
        refine List.mem_filter.mpr ⟨List.mem_map_of_mem _ hb, ?_⟩
        simp only [hbn]
        simpa using hn4
      have hrec : (recentWithSprint today bs).isEmpty = false := by
        cases h : recentWithSprint today bs
        · rw [h] at hpmem
          cases hpmem
        · rfl
      have hmn : ((n.toNat : Int)) = n := Int.toNat_of_nonneg hn0
      have hm4 : n.toNat < ANALYSIS_SPRINTS := by omega
      have hany : ((recentWithSprint today bs).any
          (fun p => p.1 = ((n.toNat : Int)))) = true := by
        apply List.any_eq_true.mpr
        refine ⟨(sprintNumber today b, b), hpmem, ?_⟩
        simp [hbn, hmn]
      simp only [calculate_sprint_data, hbs, hrec, Bool.false_eq_true, if_false]
      refine ⟨_, List.mem_map_of_mem _ (List.mem_filter.mpr ⟨?_, hany⟩), hmn⟩
      refine List.mem_flatMap.mpr ⟨n.toNat, List.mem_range.mpr hm4, ?_⟩
      simp
    · rintro ⟨row, hrow, hrown⟩
      by_cases hbs : bs.isEmpty
      · simp [calculate_sprint_data, hbs] at hrow
      · by_cases hrec : (recentWithSprint today bs).isEmpty
        · simp [calculate_sprint_data, hbs, hrec] at hrow
        · simp only [calculate_sprint_data, hbs, hrec, Bool.false_eq_true, if_false,
            List.mem_map, List.mem_filter, List.mem_range] at hrow
          obtain ⟨a, ⟨ham, hany⟩, rfl⟩ := hrow
          obtain ⟨p, hp, hpa⟩ := List.any_eq_true.mp hany
          obtain ⟨b, hbbs, rfl⟩ := List.mem_map.mp (List.mem_of_mem_filter hp)
          refine ⟨b, hbbs, ?_⟩
          have hba : sprintNumber today b = a := by simpa using hpa
          rw [hba]
          exact hrown

/-- Claim C5 witness: one booking 100 days old (sprint 7) leaves the sprint
list empty. -/
theorem C5_sprint_aggregation_witness :
    calculate_sprint_data 0 [{ datumBuchung := -100, stunden := 5 }] = [] :=
  (C5_sprint_aggregation 0 [{ datumBuchung := -100, stunden := 5 }]
    (by intro b hb; simp only [List.mem_singleton] at hb; subst hb; norm_num)).2.1
    (by
      intro b hb
      simp only [List.mem_singleton] at hb
      subst hb
      show (4 : Int) ≤ (Int.floor ((0 : ℚ) - ((-100 : Int) : ℚ))).fdiv 14
      norm_num
      decide)
